import Mathlib

/-!
# Verification of the boorufs szurubooru read-only API

Shallow embedding of the core subsystems of
`src/extra/szurubooru-readonly-api.py`:

* the tag-query compiler `compile_query` (lines 296-360),
* the file-kind classification inside `fetch_file_entity` (lines 896-912),
* the thumbnail submission governor `submit_thumbnail` (lines 581-623),
* the artifact retention sweeper `thumbnail_cleaner` (lines 94-100).

Strings are modelled as Lean `String`/`List Char`; the five Python regexes
used by the compiler are small enough to be embedded as direct character
scanners with the exact leftmost/greedy/lazy semantics of `re.search`.
-/

namespace Boorufs

/-! ## Tag query compiler

The Python code tries five regexes in priority order at every position of
the remaining input and takes the first whose `search` result starts at
offset 0:

```
or_operator  = ( +)?\|( +)?
not_operator = ( +)?-( +)?
and_operator =  +
tag_regex    = [a-zA-Z-_0-9:;&\*\(\)]+
raw_tag_regex= ".*?"
```

If none matches at offset 0, the loop variable `maybe_capture` still holds
the `search` result of the *last* regex (`raw_tag_regex`), which may be a
match further into the remainder; in that case the code consumes up to that
match and replays the action of the previously captured regex index
(`captured_regex_index` is not reassigned).  We embed that control flow
exactly.
-/

/-- Characters accepted by the bare-tag regex `[a-zA-Z-_0-9:;&\*\(\)]+`.
`Char.isAlpha`/`Char.isDigit` are the ASCII ranges, matching Python's
explicit `a-zA-Z`/`0-9` ranges. -/
def tagChar (c : Char) : Bool :=
  c.isAlpha || c.isDigit || c = '-' || c = '_' || c = ':' || c = ';' ||
    c = '&' || c = '*' || c = '(' || c = ')'

/-- Match of `( +)?<sym>( +)?` starting exactly at the head of `l`
(used for the OR operator with `sym = '|'` and the NOT operator with
`sym = '-'`).  Returns the matched length: optional greedy run of spaces,
the symbol, then an optional greedy run of spaces. -/
def matchSymAtZero (sym : Char) (l : List Char) : Option Nat :=
  let k := (l.takeWhile (· = ' ')).length
  match l.drop k with
  | c :: rest => if c = sym then some (k + 1 + (rest.takeWhile (· = ' ')).length) else none
  | [] => none

/-- Match of the AND operator ` +` starting exactly at the head of `l`. -/
def matchAndAtZero (l : List Char) : Option Nat :=
  let k := (l.takeWhile (· = ' ')).length
  if k = 0 then none else some k

/-- Match of the bare-tag regex starting exactly at the head of `l`:
greedy maximal run of `tagChar`s.  Returns length and matched text. -/
def matchTagAtZero (l : List Char) : Option (Nat × List Char) :=
  let t := l.takeWhile (fun c => tagChar c)
  if t.length = 0 then none else some (t.length, t)

/-- Index of the first `'"'` in a character list. -/
def findQuote : List Char → Option Nat
  | [] => none
  | c :: rest => if c = '"' then some 0 else (findQuote rest).map (· + 1)

/-- Match of the lazy quoted-span regex `".*?"` starting exactly at the
head of `l`: an opening quote, then (lazily) up to the first closing
quote; `.` does not cross a newline.  Returns length and matched text,
quotes included. -/
def matchRawAtZero (l : List Char) : Option (Nat × List Char) :=
  match l with
  | '"' :: rest =>
    match findQuote rest with
    | some j =>
      if (rest.take j).any (· = '\n') then none
      else some (j + 2, l.take (j + 2))
    | none => none
  | _ => none

/-- Leftmost match of `".*?"` anywhere in `l` (Python `re.search`):
returns the absolute end offset of the match within `l` and the matched
text, quotes included. -/
def rawSearch : List Char → Option (Nat × List Char)
  | [] => none
  | l@(_ :: rest) =>
    match matchRawAtZero l with
    | some r => some r
    | none => (rawSearch rest).map (fun p => (p.1 + 1, p.2))

/-- One step of the Python pattern-priority loop: the first of the five
regexes whose match starts at offset 0 of the remainder, together with the
regex's index (0 = OR, 1 = NOT, 2 = AND, 3 = bare tag, 4 = quoted tag),
the matched length, and the matched text. -/
def matchers (l : List Char) : Option (Nat × Nat × List Char) :=
  match matchSymAtZero '|' l with
  | some e => some (0, e, l.take e)
  | none =>
  match matchSymAtZero '-' l with
  | some e => some (1, e, l.take e)
  | none =>
  match matchAndAtZero l with
  | some e => some (2, e, l.take e)
  | none =>
  match matchTagAtZero l with
  | some (e, t) => some (3, e, t)
  | none =>
  match matchRawAtZero l with
  | some (e, full) => some (4, e, full)
  | none => none

/-- The SQL fragments and tag list appended for a captured regex index,
mirroring the `if captured_regex_index == _:` chain of `compile_query`;
the quoted-tag index strips the surrounding quotes (`full_match[1:-1]`). -/
def applyCri (cri : Nat) (full : List Char) (frags : List String) (tags : List String) :
    List String × List String :=
  if cri = 0 then (frags ++ [" or"], tags)
  else if cri = 1 then
    ((if tags.isEmpty then frags ++ [" true"] else frags) ++
      [" except", " select file_hash from tag_files where"], tags)
  else if cri = 2 then
    (frags ++ [" intersect", " select file_hash from tag_files where"], tags)
  else if cri = 3 || cri = 4 then
    let fm := if cri = 4 then (full.drop 1).dropLast else full
    (frags ++ [" core_hash = ?"], tags ++ [String.mk fm])
  else (frags, tags)

/-- Failure modes of `compile_query`: the `Exception` carrying the
offending offset, and the bare `assert captured_regex_index is not None`
(reachable when no pattern matches at offset 0 on the very first
iteration but the quoted-span regex matches later). -/
inductive CompileError where
  | parse (index : Nat)
  | assertFail
deriving DecidableEq, Repr

/-- The `while True:` scanning loop of `compile_query`.  `fuel` only
bounds recursion; every step consumes at least one character, so
`l.length + 1` fuel is always sufficient.  `cri` is the persistent
`captured_regex_index` (None before the first match). -/
def compileLoop : Nat → List Char → Nat → Option Nat → List String → List String →
    Except CompileError (List String × List String)
  | _, [], _, _, frags, tags => .ok (frags, tags)
  | 0, _ :: _, index, _, _, _ => .error (.parse index)
  | fuel + 1, l@(_ :: _), index, cri, frags, tags =>
    match matchers l with
    | some (r, e, full) =>
      let st := applyCri r full frags tags
      compileLoop fuel (l.drop e) (index + e) (some r) st.1 st.2
    | none =>
      match rawSearch l with
      | some (e, full) =>
        match cri with
        | none => .error .assertFail
        | some r =>
          let st := applyCri r full frags tags
          compileLoop fuel (l.drop e) (index + e) (some r) st.1 st.2
      | none => .error (.parse index)

/-- Output of `compile_query`: the SQL text and the ordered tag list. -/
structure CompiledSearch where
  query : String
  tags : List String
deriving DecidableEq, Repr

/-- The `AWTFDB_FORCED_QUERY` prepending logic at the top of
`compile_query` (`forced = none` models the variable being unset; an
empty string is falsy in Python and also leaves the query unchanged). -/
def effectiveQuery (forced : Option String) (search_query : String) : String :=
  match forced with
  | none => search_query
  | some f =>
    if f = "" then search_query
    else if search_query = "" then f
    else f ++ " " ++ search_query

/-- `compile_query` (lines 296-360): compiles the search string into SQL
plus the ordered tag parameter list, or fails. -/
def compile_query (forced : Option String) (search_query : String) :
    Except CompileError CompiledSearch :=
  let sq := effectiveQuery forced search_query
  if sq = "" then .ok ⟨"select distinct file_hash from tag_files", []⟩
  else
    match compileLoop (sq.length + 1) sq.data 0 none
        ["select file_hash from tag_files where"] [] with
    | .ok st => .ok ⟨String.join st.1, st.2⟩
    | .error e => .error e

/-! ## File kind classification

Embeds the `"type"` computation of `fetch_file_entity`
(lines 896-912): the if/elif chain over the resolved mime string. -/

/-- Python's `str.startswith`, as a prefix test on the character
sequence. -/
def startswith (s p : String) : Bool := p.data.isPrefixOf s.data

/-- The file-kind classification of `fetch_file_entity`: note that the
final `else` branch assigns `"image"`, not a distinct fallback kind. -/
def file_type_for_mime (mime : String) : String :=
  if startswith mime "image/" then
    if mime = "image/gif" then "animation" else "image"
  else if startswith mime "video/" then "video"
  else if startswith mime "audio/" then "audio"
  else "image"

/-! ## Thumbnail submission governor

Embeds `submit_thumbnail` (lines 581-623).  The five strategy branches
select a thumbnailing function and a semaphore and, for all but the
`image/` branch, rewrite the target path to `{file_id}.png`.  The
registry `app.thumbnailing_tasks` is modelled as an association list from
file id to the (completed) outcome of the registered task: `true` for a
successful generation, `false` for a generation that returned `False`.
A single request is modelled run-to-completion: the awaited task's
outcome is `freshOutcome` for a newly created task, or the stored outcome
for a pre-registered one. -/

/-- The thumbnailing functions of the source, one per strategy branch. -/
inductive ThumbFn where
  | thumbnail_given_path
  | thumbnail_given_pdf
  | thumbnail_given_video
  | thumbnail_given_path_only_filename
  | thumbnail_given_path_file_contents
deriving DecidableEq, Repr

/-- Strategy selection outcome: thumbnailing function, whether the
expensive semaphore is used, and whether the target path is rewritten to
`{file_id}.png`. -/
structure ThumbConfig where
  fn : ThumbFn
  expensive : Bool
  rewritePath : Bool
deriving DecidableEq, Repr

/-- The strategy-selection if/elif chain at the top of
`submit_thumbnail` (lines 582-602); `none` is the final
`else: return None` branch. -/
def selectStrategy (mimetype : String) : Option ThumbConfig :=
  if startswith mimetype "image/" then
    some ⟨.thumbnail_given_path, false, false⟩
  else if mimetype = "application/pdf" then
    some ⟨.thumbnail_given_pdf, true, true⟩
  else if startswith mimetype "video/" then
    some ⟨.thumbnail_given_video, true, true⟩
  else if startswith mimetype "audio/" then
    some ⟨.thumbnail_given_path_only_filename, false, true⟩
  else if startswith mimetype "text/" then
    some ⟨.thumbnail_given_path_file_contents, false, true⟩
  else none

/-- The target path used after strategy selection. -/
def effectivePath (cfg : ThumbConfig) (fileId : Nat) (thumbnailPath : String) : String :=
  if cfg.rewritePath then toString fileId ++ ".png" else thumbnailPath

/-- The registry with the entry for `fileId` removed (`dict.pop` with a
swallowed `KeyError`). -/
def popKey (registry : List (Nat × Bool)) (fileId : Nat) : List (Nat × Bool) :=
  registry.filter (fun p => p.1 ≠ fileId)

/-- Observable outcome of one `submit_thumbnail` call: returned value,
resulting registry, and whether this call created (and registered) a new
task — which is also exactly when `_thumbnail_wrapper` acquires a
semaphore slot for it — and whether the on-disk existence check
(`thumbnail_path.exists()`) was reached. -/
structure SubmitResult where
  result : Option String
  registry : List (Nat × Bool)
  createdTask : Bool
  slotAcquired : Bool
  checkedDisk : Bool
deriving DecidableEq, Repr

/-- `submit_thumbnail` (lines 581-623), run to completion for a single
request.  `existsOnDisk` is the result of `thumbnail_path.exists()` on
the effective target path; `freshOutcome` is the outcome a newly created
generation task would produce. -/
def submit_thumbnail (fileId : Nat) (mimetype : String) (thumbnailPath : String)
    (existsOnDisk : Bool) (freshOutcome : Bool) (registry : List (Nat × Bool)) :
    SubmitResult :=
  match selectStrategy mimetype with
  | none => ⟨none, registry, false, false, false⟩
  | some cfg =>
    let tpath := effectivePath cfg fileId thumbnailPath
    if existsOnDisk then ⟨some tpath, registry, false, false, true⟩
    else
      match registry.lookup fileId with
      | some outcome =>
        if outcome = false then ⟨none, registry, false, false, true⟩
        else ⟨some tpath, popKey registry fileId, false, false, true⟩
      | none =>
        let registry' := registry ++ [(fileId, freshOutcome)]
        if freshOutcome = false then ⟨none, registry', true, true, true⟩
        else ⟨some tpath, popKey registry' fileId, true, true, true⟩

/-! ## Artifact retention sweeper

Embeds `thumbnail_cleaner` (lines 94-100):

```python
async def thumbnail_cleaner():
    try:
        while True:
            await thumbnail_cleaner_tick()
            await asyncio.sleep(3600)
    except:
        log.exception("thumbnail cleaner task error")
```

The `try`/`except` wraps the whole `while` loop, so an exception raised
by one tick leaves the loop and the function returns after logging.  The
model takes, for each scheduled iteration of a finite observation window,
whether `thumbnail_cleaner_tick` raises, and returns how many tick
invocations actually start within that window. -/

/-- Number of `thumbnail_cleaner_tick` invocations that start, given per
iteration whether the tick raises an unhandled error (`true` = raises). -/
def thumbnail_cleaner : List Bool → Nat
  | [] => 0
  | raises :: rest => 1 + (if raises then 0 else thumbnail_cleaner rest)

/-! ## Helper definitions and lemmas -/

/-- Number of positional parameter slots (`?` placeholders) in a query. -/
def countQ (s : String) : Nat := s.data.count '?'

/-- Total number of `?` placeholders across a fragment list. -/
def fragsQ (frags : List String) : Nat := (frags.map countQ).sum

theorem data_foldl_append (l : List String) (acc : String) :
    (l.foldl (fun r s => r ++ s) acc).data = acc.data ++ (l.map String.data).flatten := by
  induction l generalizing acc with
  | nil => simp
  | cons s rest ih =>
    simp only [List.foldl_cons, List.map_cons, List.flatten_cons, ih]
    simp [String.data_append]

theorem countQ_join (l : List String) : countQ (String.join l) = fragsQ l := by
  have h : ∀ m : List (List Char), List.count '?' m.flatten = (m.map (List.count '?')).sum := by
    intro m
    induction m with
    | nil => rfl
    | cons a t ih => simp [List.flatten_cons, List.count_append, ih]
  simp only [countQ, String.join, data_foldl_append, List.nil_append, fragsQ, h, List.map_map]
  rfl

theorem fragsQ_append_one (frags : List String) (s : String) :
    fragsQ (frags ++ [s]) = fragsQ frags + countQ s := by
  simp [fragsQ]

/-- Every fragment-appending action preserves "number of `?` slots equals
number of tags": operator fragments contain no `?`, and the tag fragment
contributes exactly one `?` together with exactly one tag. -/
theorem applyCri_inv (r : Nat) (full : List Char) (frags tags : List String)
    (h : fragsQ frags = tags.length) :
    fragsQ (applyCri r full frags tags).1 = (applyCri r full frags tags).2.length := by
  have c1 : countQ " or" = 0 := rfl
  have c2 : countQ " true" = 0 := rfl
  have c3 : countQ " except" = 0 := rfl
  have c4 : countQ " select file_hash from tag_files where" = 0 := rfl
  have c5 : countQ " intersect" = 0 := rfl
  have c6 : countQ " core_hash = ?" = 1 := rfl
  unfold applyCri
  split_ifs <;>
    simp_all [fragsQ_append_one, List.append_assoc, List.map_append, fragsQ]

theorem tagChar_ne (c : Char) (h : tagChar c = true) :
    c ≠ ' ' ∧ c ≠ '|' ∧ c ≠ '"' := by
  refine ⟨fun hc => ?_, fun hc => ?_, fun hc => ?_⟩ <;> subst hc <;> exact absurd h (by decide)

theorem takeWhile_all_eq {p : Char → Bool} (l : List Char) (h : ∀ c ∈ l, p c = true) :
    l.takeWhile p = l := by
  induction l with
  | nil => rfl
  | cons c rest ih =>
    simp only [List.takeWhile_cons, h c (by simp)]
    simp [ih fun x hx => h x (by simp [hx])]

/-- One scan step of the loop when the pattern-priority probe matches. -/
theorem compileLoop_cons (fuel idx : Nat) (c : Char) (rest : List Char)
    (cri : Option Nat) (frags tags : List String) (r e : Nat) (full : List Char)
    (hm : matchers (c :: rest) = some (r, e, full)) :
    compileLoop (fuel + 1) (c :: rest) idx cri frags tags =
      compileLoop fuel ((c :: rest).drop e) (idx + e) (some r)
        (applyCri r full frags tags).1 (applyCri r full frags tags).2 := by
  simp [compileLoop, hm]

/-- The NOT operator matches at the head of `'-' :: c :: cs` (consuming
just the dash) whenever the next character is not a space. -/
theorem matchers_minus (c : Char) (cs : List Char) (hc : c ≠ ' ') :
    matchers ('-' :: c :: cs) = some (1, 1, ['-']) := by
  unfold matchers matchSymAtZero matchAndAtZero
  simp [List.takeWhile_cons, hc]

/-- A head character in the bare-tag class (other than `'-'`, which the
NOT pattern claims first) makes the scanner consume the maximal run of
tag characters as one bare tag. -/
theorem matchers_tag (c : Char) (cs : List Char) (hc : tagChar c = true) (hne : c ≠ '-') :
    matchers (c :: cs) =
      some (3, ((c :: cs).takeWhile (fun x => tagChar x)).length,
        (c :: cs).takeWhile (fun x => tagChar x)) := by
  obtain ⟨hsp, hbar, _⟩ := tagChar_ne c hc
  unfold matchers matchSymAtZero matchAndAtZero matchTagAtZero
  simp [List.takeWhile_cons, hsp, hbar, hne, hc]

theorem lookup_append_of_none {r : List (Nat × Bool)} {k : Nat}
    (h : r.lookup k = none) (v : Bool) : (r ++ [(k, v)]).lookup k = some v := by
  induction r with
  | nil => simp [List.lookup]
  | cons p t ih =>
    simp only [List.lookup, List.cons_append] at h ⊢
    cases hb : (k == p.1) with
    | true => simp [hb] at h
    | false => simp only [hb] at h ⊢; exact ih h

theorem lookup_popKey (r : List (Nat × Bool)) (k : Nat) :
    (popKey r k).lookup k = none := by
  induction r with
  | nil => rfl
  | cons p t ih =>
    by_cases hp : p.1 = k
    · simpa [popKey, List.filter, hp] using ih
    · have hb : (k == p.1) = false := by simp [Ne.symm hp]
      simpa [popKey, List.filter, hp, List.lookup, hb] using ih

/-- The scanning loop preserves "number of `?` slots in the accumulated
fragments equals number of accumulated tags", on every path including the
stale-`captured_regex_index` resynchronisation path. -/
theorem compileLoop_inv (fuel : Nat) :
    ∀ l idx cri frags tags out,
      compileLoop fuel l idx cri frags tags = .ok out →
      fragsQ frags = tags.length →
      fragsQ out.1 = out.2.length := by
  induction fuel with
  | zero =>
    intro l idx cri frags tags out h hin
    cases l with
    | nil => simp only [compileLoop, Except.ok.injEq] at h; rw [← h]; exact hin
    | cons c rest => simp [compileLoop] at h
  | succ n ih =>
    intro l idx cri frags tags out h hin
    cases l with
    | nil => simp only [compileLoop, Except.ok.injEq] at h; rw [← h]; exact hin
    | cons c rest =>
      cases hm : matchers (c :: rest) with
      | some trip =>
        obtain ⟨r, e, full⟩ := trip
        rw [compileLoop, hm] at h
        exact ih _ _ _ _ _ _ h (applyCri_inv r full frags tags hin)
      | none =>
        rw [compileLoop, hm] at h
        cases hr : rawSearch (c :: rest) with
        | some p =>
          obtain ⟨e, full⟩ := p
          rw [hr] at h
          cases cri with
          | none => simp at h
          | some r => exact ih _ _ _ _ _ _ h (applyCri_inv r full frags tags hin)
        | none => rw [hr] at h; simp at h

/-! ## Claim theorems -/

/-- C1 (counterexample): after a generation task completes with failure,
`submit_thumbnail` returns `None` *before* popping the registry entry, so
the entry for the file id is NOT removed — contradicting "the entry is
removed from the registry unconditionally".  Consequently a subsequent
request for the same file id finds the stale completed task, creates no
fresh generation task, and again returns "no artifact" even though a
fresh attempt would succeed. -/
theorem submit_thumbnail_failure_keeps_entry :
    (submit_thumbnail 1 "image/png" "/thumbs/1.jpg" false false []).registry = [(1, false)] ∧
    (submit_thumbnail 1 "image/png" "/thumbs/1.jpg" false false []).result = none ∧
    (submit_thumbnail 1 "image/png" "/thumbs/1.jpg" false true [(1, false)]).createdTask = false ∧
    (submit_thumbnail 1 "image/png" "/thumbs/1.jpg" false true [(1, false)]).result = none := by
  refine ⟨rfl, rfl, rfl, rfl⟩

/-- C1 (amended): on successful completion the registry entry is removed;
on failure the call returns "no artifact" while leaving the completed
task's entry registered under the file id. -/
theorem submit_thumbnail_registry_cleanup (fileId : Nat) (mt tp : String)
    (registry : List (Nat × Bool)) (cfg : ThumbConfig)
    (hs : selectStrategy mt = some cfg)
    (hnone : registry.lookup fileId = none) :
    (submit_thumbnail fileId mt tp false false registry).result = none ∧
    (submit_thumbnail fileId mt tp false false registry).registry.lookup fileId = some false ∧
    (submit_thumbnail fileId mt tp false true registry).registry.lookup fileId = none := by
  unfold submit_thumbnail
  rw [hs]
  simp only [Bool.false_eq_true, if_false, hnone]
  exact ⟨rfl, lookup_append_of_none hnone false, lookup_popKey _ _⟩

/-- C1 (witness for the amended theorem). -/
theorem submit_thumbnail_registry_cleanup_witness :
    (submit_thumbnail 7 "image/png" "/thumbs/7.jpg" false false []).result = none ∧
    (submit_thumbnail 7 "image/png" "/thumbs/7.jpg" false false []).registry.lookup 7 =
      some false ∧
    (submit_thumbnail 7 "image/png" "/thumbs/7.jpg" false true []).registry.lookup 7 = none :=
  submit_thumbnail_registry_cleanup 7 "image/png" "/thumbs/7.jpg" []
    ⟨.thumbnail_given_path, false, false⟩ rfl rfl

/-- C2 (counterexample): the `try`/`except` of `thumbnail_cleaner` wraps
the whole `while` loop, so when the first iteration's tick raises, the
second scheduled iteration never starts — only one tick runs in a
two-iteration window, contradicting "after any failed iteration a
subsequent iteration still runs". -/
theorem thumbnail_cleaner_stops_after_error : thumbnail_cleaner [true, false] = 1 := rfl

/-- C2 (amended): an unhandled error in one wait-and-scan iteration is
caught outside the loop and terminates the recurring schedule: no
further tick ever starts, whatever was scheduled afterwards. -/
theorem thumbnail_cleaner_error_terminates (rest : List Bool) :
    thumbnail_cleaner (true :: rest) = 1 := by
  simp [thumbnail_cleaner]

/-- C3 (counterexample): the classifier's fallback branch assigns
`"image"`, the same kind as still images, not a generic/text fallback
kind distinct from image. -/
theorem file_type_fallback_is_image :
    file_type_for_mime "application/octet-stream" = "image" ∧
    file_type_for_mime "image/png" = "image" := ⟨rfl, rfl⟩

/-- C3 (amended): `image/*` classifies as `image` except `image/gif`
which classifies as `animation`; `video/*` as `video`; `audio/*` as
`audio`; every other mime (`text/*`, `application/*`, ...) classifies as
`image` — the fallback coincides with the image kind. -/
theorem file_type_for_mime_cases (m : String) :
    (startswith m "image/" = true →
      file_type_for_mime m = if m = "image/gif" then "animation" else "image") ∧
    (startswith m "image/" = false → startswith m "video/" = true →
      file_type_for_mime m = "video") ∧
    (startswith m "image/" = false → startswith m "video/" = false →
      startswith m "audio/" = true → file_type_for_mime m = "audio") ∧
    (startswith m "image/" = false → startswith m "video/" = false →
      startswith m "audio/" = false → file_type_for_mime m = "image") := by
  refine ⟨fun h1 => ?_, fun h1 h2 => ?_, fun h1 h2 h3 => ?_, fun h1 h2 h3 => ?_⟩ <;>
    simp [file_type_for_mime, h1] <;> simp [*]

/-- C3 (witness for the amended theorem). -/
theorem file_type_for_mime_cases_witness :
    file_type_for_mime "image/gif" = (if "image/gif" = "image/gif" then "animation" else "image") ∧
    file_type_for_mime "video/mp4" = "video" ∧
    file_type_for_mime "application/pdf" = "image" :=
  ⟨(file_type_for_mime_cases "image/gif").1 (by decide),
   (file_type_for_mime_cases "video/mp4").2.1 (by decide) (by decide),
   (file_type_for_mime_cases "application/pdf").2.2.2 (by decide) (by decide) (by decide)⟩

/-- C4 (counterexample): at offset 2 of `a ..\x7bnothing\x7d`, none of
the five patterns matches; the claim demands a parse error and no
best-effort result, but because the quoted-span regex matches later in
the remainder, `compile_query` silently consumes up to that span using
the stale captured regex index and returns a (garbled) compiled result:
for the input `a ..\"b\"` it succeeds with tags `["a"]`. -/
theorem compile_query_stuck_position_not_fatal :
    matchers ("..\"b\"".data) = none ∧
    compile_query none "a ..\"b\"" =
      .ok ⟨"select file_hash from tag_files where core_hash = ? intersect select file_hash from tag_files where intersect select file_hash from tag_files where",
        ["a"]⟩ := ⟨rfl, rfl⟩

/-- C4 (amended): a parse error reporting the offending offset is raised
exactly at a stuck position where additionally the quoted-span regex
finds no match anywhere in the remaining input; in particular the
unterminated quote `a \"cd` fails with a parse error at offset 2 and no
result is returned. -/
theorem compile_query_parse_error (fuel idx : Nat) (l : List Char) (cri : Option Nat)
    (frags tags : List String) (hne : l ≠ [])
    (hm : matchers l = none) (hr : rawSearch l = none) :
    compileLoop fuel l idx cri frags tags = .error (.parse idx) ∧
    compile_query none "a \"cd" = .error (.parse 2) := by
  refine ⟨?_, rfl⟩
  cases l with
  | nil => exact absurd rfl hne
  | cons c rest =>
    cases fuel with
    | zero => rfl
    | succ n => rw [compileLoop, hm, hr]

/-- C4 (witness for the amended theorem). -/
theorem compile_query_parse_error_witness :
    compileLoop 3 ("/".data) 7 none [] [] = .error (.parse 7) ∧
    compile_query none "a \"cd" = .error (.parse 2) :=
  compile_query_parse_error 3 7 ("/".data) none [] [] (by decide) rfl rfl

/-- Auxiliary: the scanning loop on an exhausted input returns the
accumulated state, whatever fuel remains. -/
theorem compileLoop_nil (fuel idx : Nat) (cri : Option Nat) (frags tags : List String) :
    compileLoop fuel [] idx cri frags tags = .ok (frags, tags) := by
  cases fuel <;> rfl

/-- C5 (confirmed): a NOT token as the first token of the query (the tag
list still empty) makes the compiler synthesize the universal `true`
base clause before the EXCEPT subtraction: for any nonempty bare tag `t`
(not itself starting with a dash), `-t` compiles to "everything except
files tagged t" with parameter list `[t]`. -/
theorem compile_minus_tag (t : String) (c : Char) (cs : List Char)
    (hdata : t.data = c :: cs) (hc : tagChar c = true) (hnm : c ≠ '-')
    (hcs : ∀ x ∈ cs, tagChar x = true) :
    compile_query none ("-" ++ t) =
      .ok ⟨"select file_hash from tag_files where true except select file_hash from tag_files where core_hash = ?",
        [t]⟩ := by
  have hsp : c ≠ ' ' := (tagChar_ne c hc).1
  have hdd : ("-" ++ t).data = '-' :: c :: cs := by
    rw [String.data_append, hdata]; rfl
  have hne : ¬("-" ++ t) = "" := by
    intro h
    have h2 := congrArg String.data h
    rw [hdd] at h2
    exact List.noConfusion h2
  have hlen : ("-" ++ t).length = cs.length + 2 := by
    have h1 : ("-" ++ t).length = ("-" ++ t).data.length := rfl
    rw [h1, hdd]
    simp
  have htw : (c :: cs).takeWhile (fun x => tagChar x) = c :: cs := by
    refine takeWhile_all_eq _ fun x hx => ?_
    rcases List.mem_cons.mp hx with h | h
    · rw [h]; exact hc
    · exact hcs x h
  have hmt : matchers (c :: cs) = some (3, (c :: cs).length, c :: cs) := by
    rw [matchers_tag c cs hc hnm, htw]
  have step1 : compileLoop (cs.length + 2 + 1) ('-' :: c :: cs) 0 none
      ["select file_hash from tag_files where"] [] =
      compileLoop (cs.length + 2) (c :: cs) 1 (some 1)
        ["select file_hash from tag_files where", " true", " except",
         " select file_hash from tag_files where"] [] := by
    rw [compileLoop_cons (cs.length + 2) 0 '-' (c :: cs) none _ _ 1 1 ['-']
      (matchers_minus c cs hsp)]
    rfl
  have step2 : compileLoop (cs.length + 2) (c :: cs) 1 (some 1)
      ["select file_hash from tag_files where", " true", " except",
       " select file_hash from tag_files where"] [] =
      compileLoop (cs.length + 1) ((c :: cs).drop (c :: cs).length) (1 + (c :: cs).length)
        (some 3)
        ["select file_hash from tag_files where", " true", " except",
         " select file_hash from tag_files where", " core_hash = ?"]
        [String.mk (c :: cs)] := by
    rw [show cs.length + 2 = cs.length + 1 + 1 from rfl,
      compileLoop_cons (cs.length + 1) 1 c cs (some 1) _ _ 3 (c :: cs).length (c :: cs) hmt]
    rfl
  have main : compileLoop (cs.length + 2 + 1) ('-' :: c :: cs) 0 none
      ["select file_hash from tag_files where"] [] =
      .ok (["select file_hash from tag_files where", " true", " except",
        " select file_hash from tag_files where", " core_hash = ?"],
        [String.mk (c :: cs)]) := by
    rw [step1, step2, List.drop_length, compileLoop_nil]
  simp only [compile_query, effectiveQuery]
  rw [if_neg hne, hdd, hlen, main]
  rw [← hdata]
  rfl

/-- C5 (witness). -/
theorem compile_minus_tag_witness :
    compile_query none "-d" =
      .ok ⟨"select file_hash from tag_files where true except select file_hash from tag_files where core_hash = ?",
        ["d"]⟩ :=
  compile_minus_tag "d" 'd' [] rfl (by decide) (by decide) (by intro x hx; cases hx)

/-- C6 (confirmed): the spec's worked example, matching `test_compiler`:
`a b | "cd"|e` compiles to `(match a) INTERSECT (match b) OR (match cd)
OR (match e)` with parameters `["a","b","cd","e"]` and the quotes
stripped from the quoted tag. -/
theorem compile_example_query :
    compile_query none "a b | \"cd\"|e" =
      .ok ⟨"select file_hash from tag_files where core_hash = ? intersect select file_hash from tag_files where core_hash = ? or core_hash = ? or core_hash = ?",
        ["a", "b", "cd", "e"]⟩ := rfl

/-- C7 (confirmed): every accepted query compiles to as many `?`
parameter slots as returned tags (the tags are accumulated in encounter
order by construction of the scan), and the empty query yields the
match-everything template with zero slots and zero tags. -/
theorem compiled_slots_eq_tags (forced : Option String) (q : String) (r : CompiledSearch)
    (h : compile_query forced q = .ok r) :
    countQ r.query = r.tags.length ∧
    compile_query none "" = .ok ⟨"select distinct file_hash from tag_files", []⟩ := by
  refine ⟨?_, rfl⟩
  simp only [compile_query] at h
  by_cases hsq : effectiveQuery forced q = ""
  · rw [if_pos hsq] at h
    injection h with h
    rw [← h]
    rfl
  · rw [if_neg hsq] at h
    cases hloop : compileLoop ((effectiveQuery forced q).length + 1)
        (effectiveQuery forced q).data 0 none
        ["select file_hash from tag_files where"] [] with
    | ok st =>
      rw [hloop] at h
      injection h with h
      rw [← h]
      exact (countQ_join st.1).trans (compileLoop_inv _ _ _ _ _ _ st hloop rfl)
    | error e => rw [hloop] at h; exact absurd h (by simp)

/-- C7 (witness). -/
theorem compiled_slots_eq_tags_witness :
    countQ (CompiledSearch.mk "select file_hash from tag_files where core_hash = ?" ["a"]).query =
      (CompiledSearch.mk "select file_hash from tag_files where core_hash = ?" ["a"]).tags.length ∧
    compile_query none "" = .ok ⟨"select distinct file_hash from tag_files", []⟩ :=
  compiled_slots_eq_tags none "a"
    ⟨"select file_hash from tag_files where core_hash = ?", ["a"]⟩ rfl

/-- C8 (confirmed): when the mime maps to a strategy and the effective
target artifact already exists on disk, `submit_thumbnail` returns that
path at once: the registry is untouched, no task is created or
registered, and no semaphore slot is acquired. -/
theorem submit_thumbnail_existing_artifact (fileId : Nat) (mt tp : String)
    (cfg : ThumbConfig) (registry : List (Nat × Bool)) (fo : Bool)
    (hs : selectStrategy mt = some cfg) :
    submit_thumbnail fileId mt tp true fo registry =
      ⟨some (effectivePath cfg fileId tp), registry, false, false, true⟩ := by
  unfold submit_thumbnail
  rw [hs]
  rfl

/-- C8 (witness). -/
theorem submit_thumbnail_existing_artifact_witness :
    submit_thumbnail 3 "application/pdf" "/thumbs/3.pdf" true true [] =
      ⟨some (effectivePath ⟨.thumbnail_given_pdf, true, true⟩ 3 "/thumbs/3.pdf"),
        [], false, false, true⟩ :=
  submit_thumbnail_existing_artifact 3 "application/pdf" "/thumbs/3.pdf"
    ⟨.thumbnail_given_pdf, true, true⟩ [] true rfl

/-- C9 (confirmed): a mimetype outside the five strategy branches makes
`submit_thumbnail` return "no artifact" immediately: the disk-existence
check is never reached, no job is created or registered, no slot is
acquired, and the registry is returned unchanged — independently of the
disk state and of what a generation attempt would have produced. -/
theorem submit_thumbnail_unknown_mime (fileId : Nat) (mt tp : String)
    (ex fo : Bool) (registry : List (Nat × Bool))
    (h1 : startswith mt "image/" = false) (h2 : mt ≠ "application/pdf")
    (h3 : startswith mt "video/" = false) (h4 : startswith mt "audio/" = false)
    (h5 : startswith mt "text/" = false) :
    submit_thumbnail fileId mt tp ex fo registry = ⟨none, registry, false, false, false⟩ := by
  have hsel : selectStrategy mt = none := by
    simp [selectStrategy, h1, h2, h3, h4, h5]
  unfold submit_thumbnail
  rw [hsel]

/-- C9 (witness). -/
theorem submit_thumbnail_unknown_mime_witness :
    submit_thumbnail 5 "application/zip" "/thumbs/5.zip" true false [(5, true)] =
      ⟨none, [(5, true)], false, false, false⟩ :=
  submit_thumbnail_unknown_mime 5 "application/zip" "/thumbs/5.zip" true false
    [(5, true)] rfl (by decide) rfl rfl rfl

/-- C10 (counterexample): `','`/`'.'` outside a quoted span matches no
pattern at its position, yet the whole query is NOT rejected: because a
complete quoted span occurs later, the compiler skips to it and replays
the stale captured pattern, so `a.\"b\"` compiles without error — and
even records the quoted span with its quotes kept, since the stale
pattern index is the bare-tag one. -/
theorem bare_tag_break_not_rejected :
    matchers (".\"b\"".data) = none ∧
    compile_query none "a.\"b\"" =
      .ok ⟨"select file_hash from tag_files where core_hash = ? core_hash = ?",
        ["a", "\"b\""]⟩ := ⟨rfl, rfl⟩

/-- C10 (amended): a bare tag token is the maximal run of characters
from `[a-zA-Z0-9-_:;&*()]` at its position (when it does not begin with
`'-'`, which the NOT pattern claims first); a character outside the
token alphabet rejects the query only when no complete quoted span
follows it — otherwise scanning resumes at the next quoted span, e.g.
`x,\"y\"` compiles without error. -/
theorem bare_tag_maximal_run (c : Char) (cs : List Char)
    (hc : tagChar c = true) (hnm : c ≠ '-') :
    matchers (c :: cs) =
      some (3, ((c :: cs).takeWhile (fun x => tagChar x)).length,
        (c :: cs).takeWhile (fun x => tagChar x)) ∧
    compile_query none "x,\"y\"" =
      .ok ⟨"select file_hash from tag_files where core_hash = ? core_hash = ?",
        ["x", "\"y\""]⟩ :=
  ⟨matchers_tag c cs hc hnm, rfl⟩

/-- C10 (witness for the amended theorem). -/
theorem bare_tag_maximal_run_witness :
    matchers ('x' :: "yz .".data) =
      some (3, (('x' :: "yz .".data).takeWhile (fun x => tagChar x)).length,
        ('x' :: "yz .".data).takeWhile (fun x => tagChar x)) ∧
    compile_query none "x,\"y\"" =
      .ok ⟨"select file_hash from tag_files where core_hash = ? core_hash = ?",
        ["x", "\"y\""]⟩ :=
  bare_tag_maximal_run 'x' "yz .".data (by decide) (by decide)

end Boorufs
